import Mathlib

/-
Shallow embedding of `src/dashboard/services.py`, function `get_repo_health_metrics`.

Remote data (the GitHub client's responses) is modelled by an `Env` value: every
remote fetch is an `Except GithubError _` field, timestamps are integer seconds,
and Python floats are idealised as rationals.  The function itself is translated
statement by statement: the quota guard, the repository resolver, the four metric
collectors and the colour classifiers.  A ghost trace of remote calls made is
returned alongside the report so that short-circuiting behaviour is observable.
Failures that the Python code does not catch (the issue and pull-request
collectors are not wrapped in try/except) surface as an `Except.error` result of
the whole function.
-/

/-- A GithubException, carrying the HTTP status the platform reported. -/
structure GithubError where
  status : ℤ
deriving DecidableEq

/-- One weekly contribution record; `a` is the week's addition count
(`week.a` in the source). -/
structure Week where
  a : ℕ
deriving DecidableEq

/-- One entry of `repo.get_stats_contributors()`: an optional author identity
and the list of weekly records. -/
structure ContribStat where
  author : Option String
  weeks : List Week
deriving DecidableEq

/-- One entry of the closed/open issue listing: whether the entry is actually a
pull request, its creation time, and the result of fetching its comments
(creation times of the comments, in listing order). -/
structure IssueData where
  is_pr : Bool
  created_at : ℤ
  comments : Except GithubError (List ℤ)

/-- One entry of the closed pull-request listing. -/
structure PullData where
  merged : Bool
  merged_at : Option ℤ
  closed_at : Option ℤ
  created_at : ℤ
deriving DecidableEq

/-- The repository handle together with the outcome of every remote query the
collectors perform on it.  The listings are assumed ordered as requested by the
source (`sort="created", direction="desc"`). -/
structure Repo where
  full_name : String
  stargazers_count : ℤ
  forks_count : ℤ
  open_issues_count : ℤ
  language : Option String
  license : Option String
  pushed_at : Option ℤ
  issues_closed : Except GithubError (List IssueData)
  issues_open : Except GithubError (List IssueData)
  pulls : Except GithubError (List PullData)
  contributors_totalCount : Except GithubError ℤ
  stats_contributors : Except GithubError (List ContribStat)
  community_profile : Except Unit (Option ℤ)

/-- The whole remote world for one invocation: the observed remaining quota and
the outcome of resolving the repository. -/
structure Env where
  rate_limit_remaining : ℤ
  repo : Except GithubError Repo

/-- A metric slot of the output record: a number, the string sentinel
`"N/A"`, or the string sentinel `"Processing..."`. -/
inductive MVal where
  | num (q : ℚ)
  | na
  | processing
deriving DecidableEq

/-- The bootstrap colour classes used as severity bands:
`secondary` = unknown, `success` = favorable, `warning` = moderate,
`danger` = unfavorable. -/
inductive Color where
  | secondary
  | success
  | warning
  | danger
deriving DecidableEq

/-- Ghost labels for the remote calls the function performs, in order. -/
inductive CallKind where
  | rateLimit
  | getRepo
  | closedIssues
  | issueComments
  | openIssues
  | closedPulls
  | contributors
  | statsContributors
  | communityProfile
deriving DecidableEq

/-- Python's `round` to the nearest integer, ties to even (banker's rounding). -/
def pyRound (q : ℚ) : ℤ :=
  if q - ⌊q⌋ < 1/2 then ⌊q⌋
  else if (1 : ℚ)/2 < q - ⌊q⌋ then ⌊q⌋ + 1
  else if ⌊q⌋ % 2 = 0 then ⌊q⌋ else ⌊q⌋ + 1

/-- Python's `round(q, 2)`. -/
def round2 (q : ℚ) : ℚ := (pyRound (q * 100) : ℚ) / 100

/-- Python's `round(q, 1)`. -/
def round1 (q : ℚ) : ℚ := (pyRound (q * 10) : ℚ) / 10

/-- `statistics.mean` (only applied to nonempty lists by the source). -/
def mean (l : List ℚ) : ℚ := l.sum / l.length

/-- METRIC 1 loop body: walk the (at most 20) closed-issue entries, skip the
ones that are pull requests, fetch each remaining issue's comments (a remote
call that can fail, uncaught in the source), and record the elapsed seconds
from issue creation to first comment for issues having at least one comment. -/
def collectResponseTimes : List IssueData → Except GithubError (List ℚ)
  | [] => .ok []
  | i :: rest =>
    if i.is_pr then collectResponseTimes rest
    else
      match i.comments with
      | .error e => .error e
      | .ok [] => collectResponseTimes rest
      | .ok (c :: _) =>
        match collectResponseTimes rest with
        | .error e => .error e
        | .ok ts => .ok (((c - i.created_at : ℤ) : ℚ) :: ts)

/-- Open-issue age loop: elapsed seconds from creation to `now` for every open
entry that is not a pull request. -/
def collectIssueAges (now : ℤ) : List IssueData → List ℚ
  | [] => []
  | i :: rest =>
    if i.is_pr then collectIssueAges now rest
    else ((now - i.created_at : ℤ) : ℚ) :: collectIssueAges now rest

/-- `end_time = pr.merged_at if pr.merged else pr.closed_at`. -/
def prEndTime (p : PullData) : Option ℤ :=
  if p.merged then p.merged_at else p.closed_at

/-- METRIC 2 loop: elapsed seconds from creation to end time for each closed
pull request whose end time resolves; the others are skipped. -/
def collectPrLatencies : List PullData → List ℚ
  | [] => []
  | p :: rest =>
    match prEndTime p with
    | some e => ((e - p.created_at : ℤ) : ℚ) :: collectPrLatencies rest
    | none => collectPrLatencies rest

/-- `sum(week.a for week in contributor.weeks)`. -/
def weekSum (c : ContribStat) : ℕ := (c.weeks.map Week.a).sum

/-- `total_additions`: the sum over ALL contributor entries (author present or
not) of their weekly addition counts. -/
def total_additions (stats : List ContribStat) : ℕ :=
  (stats.map weekSum).sum

/-- `contributor_additions`: one total per contributor entry whose author
identity is present. -/
def contributor_additions (stats : List ContribStat) : List ℕ :=
  (stats.filter (fun c => c.author.isSome)).map weekSum

/-- `contributor_additions.sort(reverse=True)`. -/
def sortedAdditions (stats : List ContribStat) : List ℕ :=
  (contributor_additions stats).mergeSort (fun a b => decide (b ≤ a))

/-- `target_additions = total_additions * 0.50`. -/
def target_additions (stats : List ContribStat) : ℚ :=
  (total_additions stats : ℚ) * 0.5

/-- The bus-factor loop: accumulate a running sum and count over the sorted
per-contributor totals, returning the count at the first point the running sum
reaches the target, and nothing if the walk ends without reaching it. -/
def busFactorWalk (target : ℚ) : List ℕ → ℕ → ℕ → Option ℕ
  | [], _, _ => none
  | a :: rest, cum, count =>
    if target ≤ ((cum + a : ℕ) : ℚ) then some (count + 1)
    else busFactorWalk target rest (cum + a) (count + 1)

/-- The final value of `metrics["bus_factor"]` on the success path of the
contributor block: the walk result if it reached the target, `"N/A"` if it did
not, and `1` whenever `total_additions == 0` (the source overwrites the slot
after the walk in that case). -/
def bus_factor (stats : List ContribStat) : MVal :=
  if total_additions stats = 0 then .num 1
  else
    match busFactorWalk (target_additions stats) (sortedAdditions stats) 0 0 with
    | some k => .num (k : ℚ)
    | none => .na

/-- The contributor block's two remote calls, in source order:
`repo.get_contributors().totalCount`, then `repo.get_stats_contributors()`. -/
def contribFetch (r : Repo) : Except GithubError (ℤ × List ContribStat) :=
  match r.contributors_totalCount with
  | .error e => .error e
  | .ok tc =>
    match r.stats_contributors with
    | .error e => .error e
    | .ok st => .ok (tc, st)

/-- Final values of (`total_contributors`, `bus_factor`): on a GithubException
with status 202 both become `"Processing..."`, on any other GithubException
both become `"N/A"`, and on success they are the count and the walk outcome. -/
def contribFields (res : Except GithubError (ℤ × List ContribStat)) : MVal × MVal :=
  match res with
  | .error e => if e.status = 202 then (.processing, .processing) else (.na, .na)
  | .ok (tc, st) => (.num (tc : ℚ), bus_factor st)

/-- `community_profile.health_percentage or 0`, with any exception of the call
caught and turned into 0. -/
def healthFromProfile : Except Unit (Option ℤ) → ℤ
  | .error _ => 0
  | .ok none => 0
  | .ok (some v) => if v = 0 then 0 else v

/-- Bus-factor colour: `< 3` danger, `< 10` warning, else success; non-numeric
values keep the initial `secondary`. -/
def bus_factor_color : MVal → Color
  | .num b => if b < 3 then .danger else if b < 10 then .warning else .success
  | _ => .secondary

/-- Response-time colour (hours): `< 24` success, `< 72` warning, else danger;
non-numeric values keep `secondary`. -/
def response_time_color : MVal → Color
  | .num h => if h < 24 then .success else if h < 72 then .warning else .danger
  | _ => .secondary

/-- Review-latency colour (days): `< 3` success, `< 7` warning, else danger;
non-numeric values keep `secondary`. -/
def latency_color : MVal → Color
  | .num d => if d < 3 then .success else if d < 7 then .warning else .danger
  | _ => .secondary

/-- Community-health colour: `>= 80` success, `>= 50` warning, else danger
(this metric is always numeric in the source). -/
def health_color (h : ℚ) : Color :=
  if 80 ≤ h then .success else if 50 ≤ h then .warning else .danger

/-- Open-issue-age colour (days): `< 30` success, `< 90` warning, else danger;
non-numeric values keep `secondary`. -/
def age_color : MVal → Color
  | .num d => if d < 30 then .success else if d < 90 then .warning else .danger
  | _ => .secondary

/-- The success-report record (the `metrics` dict minus the `error` key, which
never coexists with these fields). -/
structure Metrics where
  repo_name : String
  stars : ℤ
  forks : ℤ
  open_issues : ℤ
  avg_response_time_hours : MVal
  avg_pr_latency_days : MVal
  total_contributors : MVal
  bus_factor : MVal
  rate_limit_remaining : ℤ
  last_commit_date : Option ℤ
  avg_issue_age_days : MVal
  health_percentage : ℤ
  language : String
  license : String
  bus_factor_color : Color
  response_time_color : Color
  latency_color : Color
  health_color : Color
  age_color : Color

/-- The function's observable result: either the error-only dict (error message
plus observed quota) or the fully populated metrics dict. -/
inductive Report where
  | errorReport (msg : String) (rate_limit_remaining : ℤ)
  | success (m : Metrics)

/-- The metrics dict as it stands just before the colour-classification block:
directly read attributes plus the four collectors' outcomes, colours still at
their `secondary` defaults. -/
def baseMetrics (rl : ℤ) (r : Repo) (now : ℤ) (response_times : List ℚ)
    (io : List IssueData) (ps : List PullData) : Metrics :=
  let issue_ages := collectIssueAges now io
  let pr_latencies := collectPrLatencies (ps.take 20)
  let cf := contribFields (contribFetch r)
  { repo_name := r.full_name
    stars := r.stargazers_count
    forks := r.forks_count
    open_issues := r.open_issues_count
    avg_response_time_hours :=
      if response_times = [] then .na
      else .num (round2 (mean response_times / 3600))
    avg_pr_latency_days :=
      if pr_latencies = [] then .na
      else .num (round2 (mean pr_latencies / 86400))
    total_contributors := cf.1
    bus_factor := cf.2
    rate_limit_remaining := rl
    last_commit_date := r.pushed_at
    avg_issue_age_days :=
      if issue_ages = [] then .na
      else .num (round1 (mean issue_ages / 86400))
    health_percentage := healthFromProfile r.community_profile
    language :=
      match r.language with
      | none => "N/A"
      | some s => if s = "" then "N/A" else s
    license :=
      match r.license with
      | none => "Unspecified"
      | some s => s
    bus_factor_color := .secondary
    response_time_color := .secondary
    latency_color := .secondary
    health_color := .secondary
    age_color := .secondary }

/-- The colour-classification block at the end of the source: each colour slot
is overwritten from the corresponding metric slot. -/
def applyColors (m : Metrics) : Metrics :=
  { m with
    bus_factor_color := bus_factor_color m.bus_factor
    response_time_color := response_time_color m.avg_response_time_hours
    latency_color := latency_color m.avg_pr_latency_days
    health_color := health_color (m.health_percentage : ℚ)
    age_color := age_color m.avg_issue_age_days }

/-- The quota-guard error text. -/
def rateLimitMsg (rl : ℤ) : String :=
  "API Rate Limit Warning: Only " ++ toString rl ++
    " requests remaining. Please wait one hour or provide a new token."

/-- The resolver error text, embedding the remote-reported status. -/
def repoErrorMsg (status : ℤ) : String :=
  "Repository not found, private, or unknown GitHub error: " ++ toString status

/-- Ghost trace of the contributor block: the statistics call only happens when
the contributor-count call succeeded. -/
def contribTrace (r : Repo) : List CallKind :=
  match r.contributors_totalCount with
  | .error _ => [.contributors]
  | .ok _ => [.contributors, .statsContributors]

/-- The whole of `get_repo_health_metrics`: quota guard, resolver, the four
collectors, the colour classifiers.  Returns the report (or the uncaught
exception) together with the ghost trace of remote calls performed. -/
def get_repo_health_metrics (env : Env) (now : ℤ) :
    Except GithubError Report × List CallKind :=
  if env.rate_limit_remaining < 5 then
    (.ok (.errorReport (rateLimitMsg env.rate_limit_remaining)
      env.rate_limit_remaining), [.rateLimit])
  else
    match env.repo with
    | .error e =>
      (.ok (.errorReport (repoErrorMsg e.status) env.rate_limit_remaining),
       [.rateLimit, .getRepo])
    | .ok r =>
      match r.issues_closed with
      | .error e => (.error e, [.rateLimit, .getRepo, .closedIssues])
      | .ok ic =>
        match collectResponseTimes (ic.take 20) with
        | .error e =>
          (.error e, [.rateLimit, .getRepo, .closedIssues, .issueComments])
        | .ok response_times =>
          match r.issues_open with
          | .error e =>
            (.error e,
             [.rateLimit, .getRepo, .closedIssues, .issueComments, .openIssues])
          | .ok io =>
            match r.pulls with
            | .error e =>
              (.error e,
               [.rateLimit, .getRepo, .closedIssues, .issueComments,
                .openIssues, .closedPulls])
            | .ok ps =>
              (.ok (.success (applyColors
                 (baseMetrics env.rate_limit_remaining r now response_times io ps))),
               [.rateLimit, .getRepo, .closedIssues, .issueComments,
                .openIssues, .closedPulls] ++ contribTrace r ++ [.communityProfile])

/-- Stated from the spec's words, for comparison with `collectResponseTimes`:
the responsiveness sample is, over the given closed-issue entries, the elapsed
seconds from creation to first comment of each true issue (pull-request entries
excluded) that has at least one comment. -/
def responseSampleSpec (l : List IssueData) : List ℚ :=
  l.filterMap (fun i =>
    if i.is_pr then none
    else
      match i.comments with
      | .ok (c :: _) => some ((c - i.created_at : ℤ) : ℚ)
      | _ => none)

/-- Stated from the spec's words, for comparison with `collectPrLatencies`:
for each closed pull request the end timestamp is the merge timestamp if merged
and otherwise the close timestamp; entries without a resolvable end timestamp
are excluded. -/
def prLatencySpec (l : List PullData) : List ℚ :=
  l.filterMap (fun p =>
    match (if p.merged then p.merged_at else p.closed_at) with
    | some e => some ((e - p.created_at : ℤ) : ℚ)
    | none => none)

/-- `k` is the position of the first point of the walk over `l` at which the
running sum reaches `t`: at least one element has been taken, the sum of the
first `k` elements reaches `t`, and no shorter nonempty head does. -/
def reachesHalfAt (t : ℚ) (l : List ℕ) (k : ℕ) : Prop :=
  1 ≤ k ∧ k ≤ l.length ∧ t ≤ ((l.take k).sum : ℚ) ∧
    ∀ j < k, 1 ≤ j → ((l.take j).sum : ℚ) < t

/-- Sum of the additions attributable to contributors with an author identity. -/
def authoredAdditions (stats : List ContribStat) : ℕ :=
  (contributor_additions stats).sum

/-- Bus-factor example data: authored additions 100, 50, 30, 20. -/
def exStats1 : List ContribStat :=
  [⟨some "alice", [⟨100⟩]⟩, ⟨some "bob", [⟨50⟩]⟩,
   ⟨some "carol", [⟨30⟩]⟩, ⟨some "dave", [⟨20⟩]⟩]

/-- Bus-factor example data: authored additions 10, 10, 10, 10. -/
def exStats2 : List ContribStat :=
  [⟨some "alice", [⟨10⟩]⟩, ⟨some "bob", [⟨10⟩]⟩,
   ⟨some "carol", [⟨10⟩]⟩, ⟨some "dave", [⟨10⟩]⟩]

/-- Contributor statistics of a brand-new repository: no recorded additions. -/
def exStatsZero : List ContribStat := [⟨some "alice", [⟨0⟩]⟩]

/-- Contributor statistics where most additions belong to an entry without an
author identity: total 11, authored only 1. -/
def exStatsAnon : List ContribStat := [⟨none, [⟨10⟩]⟩, ⟨some "alice", [⟨1⟩]⟩]

/-- A repository whose every remote query succeeds. -/
def repoGood : Repo :=
  { full_name := "octo/hello"
    stargazers_count := 10
    forks_count := 2
    open_issues_count := 1
    language := some "Python"
    license := some "MIT License"
    pushed_at := some 1000
    issues_closed := .ok []
    issues_open := .ok []
    pulls := .ok []
    contributors_totalCount := .ok 4
    stats_contributors := .ok exStats1
    community_profile := .ok (some 90) }

/-- An environment with ample quota and the fully healthy repository. -/
def envGood : Env := { rate_limit_remaining := 100, repo := .ok repoGood }

/-- The success report produced for `envGood`. -/
def mGood : Metrics := applyColors (baseMetrics 100 repoGood 0 [] [] [])

/-- A repository whose closed-issue listing fails with HTTP 500. -/
def repoIssuesFail : Repo := { repoGood with issues_closed := .error ⟨500⟩ }

/-- Ample quota, resolvable repository, failing closed-issue listing. -/
def envIssuesFail : Env := { rate_limit_remaining := 100, repo := .ok repoIssuesFail }

/-- A repository whose contributor statistics are still being computed. -/
def repoStats202 : Repo := { repoGood with stats_contributors := .error ⟨202⟩ }

/-- Ample quota, resolvable repository, contributor statistics pending. -/
def envStats202 : Env := { rate_limit_remaining := 100, repo := .ok repoStats202 }

/-- A repository whose contributor statistics fail with HTTP 500. -/
def repoStats500 : Repo := { repoGood with stats_contributors := .error ⟨500⟩ }

/-- Ample quota, resolvable repository, contributor statistics failing. -/
def envStats500 : Env := { rate_limit_remaining := 100, repo := .ok repoStats500 }

/-- A closed true issue created at time 0 whose first comment arrived 7200
seconds later. -/
def issueQuick : IssueData := { is_pr := false, created_at := 0, comments := .ok [7200] }

/-- A repository with exactly one closed issue, answered after two hours. -/
def repoResp : Repo := { repoGood with issues_closed := .ok [issueQuick] }

/-- Ample quota and the one-closed-issue repository. -/
def envResp : Env := { rate_limit_remaining := 100, repo := .ok repoResp }

/-- A pull request closed without a merge and lacking a close timestamp. -/
def prSkipped : PullData :=
  { merged := false, merged_at := none, closed_at := none, created_at := 0 }

/-- A pull request merged one day after creation. -/
def prMerged : PullData :=
  { merged := true, merged_at := some 86400, closed_at := some 90000, created_at := 0 }

/-- A repository with one merged and one skippable closed pull request. -/
def repoPulls : Repo := { repoGood with pulls := .ok [prMerged, prSkipped] }

/-- Ample quota and the two-pull-request repository. -/
def envPulls : Env := { rate_limit_remaining := 100, repo := .ok repoPulls }

/-- An environment observed with only 3 remaining API calls. -/
def envLowQuota : Env := { rate_limit_remaining := 3, repo := .ok repoGood }

lemma sortedAdditions_sum (stats : List ContribStat) :
    (sortedAdditions stats).sum = authoredAdditions stats := by
  unfold sortedAdditions authoredAdditions
  exact (List.mergeSort_perm _ _).sum_eq

lemma busFactorWalk_none (t : ℚ) (l : List ℕ) :
    ∀ (cum count : ℕ), ((cum + l.sum : ℕ) : ℚ) < t →
      busFactorWalk t l cum count = none := by
  induction l with
  | nil => intro cum count _; rfl
  | cons a rest ih =>
    intro cum count h
    have h1 : ((cum + a : ℕ) : ℚ) < t := by
      refine lt_of_le_of_lt (Nat.cast_le.mpr ?_) h
      simp [List.sum_cons]
    have h2 : (((cum + a) + rest.sum : ℕ) : ℚ) < t := by
      have he : ((cum + a) + rest.sum : ℕ) = (cum + (a :: rest).sum : ℕ) := by
        simp [List.sum_cons]
        omega
      rw [he]
      exact h
    simp only [busFactorWalk, if_neg (not_le.mpr h1)]
    exact ih (cum + a) (count + 1) h2

lemma busFactorWalk_some (t : ℚ) (l : List ℕ) :
    ∀ (cum count k : ℕ),
      1 ≤ k → k ≤ l.length →
      t ≤ ((cum + (l.take k).sum : ℕ) : ℚ) →
      (∀ j < k, 1 ≤ j → ((cum + (l.take j).sum : ℕ) : ℚ) < t) →
      busFactorWalk t l cum count = some (count + k) := by
  induction l with
  | nil =>
    intro cum count k hk1 hk2 _ _
    simp at hk2
    omega
  | cons a rest ih =>
    intro cum count k hk1 hk2 hsum hlt
    rcases k with _ | k'
    · omega
    by_cases hfirst : t ≤ ((cum + a : ℕ) : ℚ)
    · have hk0 : k' = 0 := by
        by_contra hne
        have h1 := hlt 1 (by omega) (by omega)
        simp only [List.take_succ_cons, List.take_zero, List.sum_cons,
          List.sum_nil, Nat.add_zero] at h1
        exact absurd hfirst (not_le.mpr h1)
      subst hk0
      simp only [busFactorWalk, if_pos hfirst]
    · have hk1' : 1 ≤ k' := by
        rcases Nat.eq_zero_or_pos k' with h0 | h1
        · subst h0
          simp only [List.take_succ_cons, List.take_zero, List.sum_cons,
            List.sum_nil, Nat.add_zero] at hsum
          exact absurd hsum hfirst
        · omega
      have hk2' : k' ≤ rest.length := by
        simp at hk2
        omega
      have hsum' : t ≤ (((cum + a) + (rest.take k').sum : ℕ) : ℚ) := by
        have he : ((cum + a) + (rest.take k').sum : ℕ)
            = (cum + (List.take (k' + 1) (a :: rest)).sum : ℕ) := by
          simp [List.take_succ_cons, List.sum_cons]
          omega
        rw [he]
        exact hsum
      have hlt' : ∀ j < k', 1 ≤ j →
          (((cum + a) + (rest.take j).sum : ℕ) : ℚ) < t := by
        intro j hj hj1
        have h1 := hlt (j + 1) (by omega) (by omega)
        have he : ((cum + a) + (rest.take j).sum : ℕ)
            = (cum + (List.take (j + 1) (a :: rest)).sum : ℕ) := by
          simp [List.take_succ_cons, List.sum_cons]
          omega
        rw [he]
        exact h1
      have hrec := ih (cum + a) (count + 1) k' hk1' hk2' hsum' hlt'
      simp only [busFactorWalk, if_neg hfirst]
      rw [hrec]
      congr 1
      omega

lemma collectResponseTimes_ok (l : List IssueData)
    (h : ∀ i ∈ l, i.is_pr = false → ∃ cs, i.comments = Except.ok cs) :
    collectResponseTimes l = .ok (responseSampleSpec l) := by
  induction l with
  | nil => rfl
  | cons i rest ih =>
    have hrest : ∀ x ∈ rest, x.is_pr = false → ∃ cs, x.comments = Except.ok cs :=
      fun x hx => h x (List.mem_cons_of_mem _ hx)
    by_cases hp : i.is_pr
    · simp [collectResponseTimes, responseSampleSpec, List.filterMap_cons, hp,
        ih hrest]
    · have hp' : i.is_pr = false := by simpa using hp
      obtain ⟨cs, hcs⟩ := h i (List.mem_cons_self i rest) hp'
      rcases cs with _ | ⟨c, cs'⟩
      · simp [collectResponseTimes, responseSampleSpec, List.filterMap_cons, hp',
          hcs, ih hrest]
      · simp [collectResponseTimes, responseSampleSpec, List.filterMap_cons, hp',
          hcs, ih hrest]

lemma collectPrLatencies_eq (l : List PullData) :
    collectPrLatencies l = prLatencySpec l := by
  induction l with
  | nil => rfl
  | cons p rest ih =>
    rcases hif : prEndTime p with _ | e
    · simp only [collectPrLatencies, hif, prLatencySpec, List.filterMap_cons]
      rw [show (if p.merged then p.merged_at else p.closed_at) = none from hif]
      exact ih
    · simp only [collectPrLatencies, hif, prLatencySpec, List.filterMap_cons]
      rw [show (if p.merged then p.merged_at else p.closed_at) = some e from hif]
      simp only [prLatencySpec] at ih
      rw [ih]

lemma get_metrics_success (env : Env) (now : ℤ) (r : Repo) (ic : List IssueData)
    (rts : List ℚ) (io : List IssueData) (ps : List PullData)
    (h5 : ¬ env.rate_limit_remaining < 5) (hr : env.repo = .ok r)
    (hic : r.issues_closed = .ok ic)
    (hct : collectResponseTimes (ic.take 20) = .ok rts)
    (hio : r.issues_open = .ok io) (hps : r.pulls = .ok ps) :
    get_repo_health_metrics env now =
      (.ok (.success (applyColors
         (baseMetrics env.rate_limit_remaining r now rts io ps))),
       [.rateLimit, .getRepo, .closedIssues, .issueComments,
        .openIssues, .closedPulls] ++ contribTrace r ++ [.communityProfile]) := by
  unfold get_repo_health_metrics
  simp only [if_neg h5, hr, hic, hct, hio, hps]

lemma success_inv (env : Env) (now : ℤ) (m : Metrics)
    (h : (get_repo_health_metrics env now).fst = .ok (.success m)) :
    ∃ rl r rts io ps, m = applyColors (baseMetrics rl r now rts io ps) := by
  unfold get_repo_health_metrics at h
  split at h
  · simp at h
  · split at h
    · simp at h
    · split at h
      · simp at h
      · split at h
        · simp at h
        · split at h
          · simp at h
          · split at h
            · simp at h
            · simp at h
              exact ⟨_, _, _, _, _, h.symm⟩

lemma contributor_additions_exStats1 :
    contributor_additions exStats1 = [100, 50, 30, 20] := by decide

lemma contributor_additions_exStats2 :
    contributor_additions exStats2 = [10, 10, 10, 10] := by decide

lemma sortedAdditions_exStats1 : sortedAdditions exStats1 = [100, 50, 30, 20] := by
  unfold sortedAdditions
  rw [contributor_additions_exStats1]
  simp [List.mergeSort]

lemma sortedAdditions_exStats2 : sortedAdditions exStats2 = [10, 10, 10, 10] := by
  unfold sortedAdditions
  rw [contributor_additions_exStats2]
  simp [List.mergeSort]

lemma target_additions_exStats1 : target_additions exStats1 = 100 := by
  unfold target_additions
  rw [show total_additions exStats1 = 200 from by decide]
  norm_num

lemma target_additions_exStats2 : target_additions exStats2 = 20 := by
  unfold target_additions
  rw [show total_additions exStats2 = 40 from by decide]
  norm_num

lemma bus_factor_exStats1 : bus_factor exStats1 = .num 1 := by
  unfold bus_factor
  rw [if_neg (by decide : ¬ total_additions exStats1 = 0),
    sortedAdditions_exStats1, target_additions_exStats1]
  have hw : busFactorWalk 100 [100, 50, 30, 20] 0 0 = some 1 := by
    norm_num [busFactorWalk]
  rw [hw]
  norm_num

lemma bus_factor_exStats2 : bus_factor exStats2 = .num 2 := by
  unfold bus_factor
  rw [if_neg (by decide : ¬ total_additions exStats2 = 0),
    sortedAdditions_exStats2, target_additions_exStats2]
  have hw : busFactorWalk 20 [10, 10, 10, 10] 0 0 = some 2 := by
    norm_num [busFactorWalk]
  rw [hw]
  norm_num

/-- C1: the bus factor is the running count at the first point of the walk over
the descending per-contributor authored totals at which the running sum reaches
half of `total_additions` (the total taken over every contributor entry,
author identity or not); the additions [100,50,30,20] give bus factor 1 and
[10,10,10,10] give 2; and whenever `total_additions = 0` the bus factor is 1,
not the unavailable sentinel. -/
theorem C1_bus_factor :
    (∀ (stats : List ContribStat) (k : ℕ), total_additions stats ≠ 0 →
      reachesHalfAt (target_additions stats) (sortedAdditions stats) k →
      bus_factor stats = .num (k : ℚ)) ∧
    (∀ stats : List ContribStat, total_additions stats = 0 →
      bus_factor stats = .num 1) ∧
    bus_factor exStats1 = .num 1 ∧
    bus_factor exStats2 = .num 2 := by
  refine ⟨?_, ?_, bus_factor_exStats1, bus_factor_exStats2⟩
  · intro stats k h0 hreach
    obtain ⟨hk1, hk2, hsum, hlt⟩ := hreach
    unfold bus_factor
    rw [if_neg h0]
    have hs : target_additions stats ≤
        (((0 : ℕ) + (List.take k (sortedAdditions stats)).sum : ℕ) : ℚ) := by
      simpa using hsum
    have hl : ∀ j < k, 1 ≤ j →
        ((((0 : ℕ) + (List.take j (sortedAdditions stats)).sum : ℕ)) : ℚ) <
          target_additions stats := by
      intro j hj hj1
      simpa using hlt j hj hj1
    rw [busFactorWalk_some (target_additions stats) (sortedAdditions stats)
      0 0 k hk1 hk2 hs hl]
    simp
  · intro stats h
    unfold bus_factor
    rw [if_pos h]

/-- C1 witness: the zero-case and the walk characterisation applied to the
concrete statistics [10,10,10,10]. -/
theorem C1_bus_factor_witness :
    bus_factor exStatsZero = MVal.num 1 ∧ bus_factor exStats2 = MVal.num 2 :=
  ⟨C1_bus_factor.2.1 exStatsZero (by decide),
   C1_bus_factor.1 exStats2 2 (by decide)
     (by
       rw [reachesHalfAt, sortedAdditions_exStats2, target_additions_exStats2]
       refine ⟨by norm_num, by norm_num, by norm_num, ?_⟩
       intro j hj hj1
       interval_cases j
       norm_num)⟩

/-- C2: classifier boundary exactness for every dimension, with half-open
boundaries and the lower bound inclusive on the better band: responsiveness 24
is moderate and 72 unfavorable; latency < 3 favorable, [3,7) moderate, ≥ 7
unfavorable; community health 80 favorable, 50 moderate, 49.999 unfavorable;
open-issue age < 30 favorable, [30,90) moderate, ≥ 90 unfavorable; and bus
factor inverted: < 3 unfavorable, [3,10) moderate, ≥ 10 favorable. -/
theorem C2_classifier_boundaries :
    response_time_color (.num 24) = Color.warning ∧
    response_time_color (.num 72) = Color.danger ∧
    health_color 80 = Color.success ∧
    health_color 50 = Color.warning ∧
    health_color (49.999 : ℚ) = Color.danger ∧
    (∀ q : ℚ, q < 24 → response_time_color (.num q) = Color.success) ∧
    (∀ q : ℚ, 24 ≤ q → q < 72 → response_time_color (.num q) = Color.warning) ∧
    (∀ q : ℚ, 72 ≤ q → response_time_color (.num q) = Color.danger) ∧
    (∀ q : ℚ, q < 3 → latency_color (.num q) = Color.success) ∧
    (∀ q : ℚ, 3 ≤ q → q < 7 → latency_color (.num q) = Color.warning) ∧
    (∀ q : ℚ, 7 ≤ q → latency_color (.num q) = Color.danger) ∧
    (∀ q : ℚ, 80 ≤ q → health_color q = Color.success) ∧
    (∀ q : ℚ, 50 ≤ q → q < 80 → health_color q = Color.warning) ∧
    (∀ q : ℚ, q < 50 → health_color q = Color.danger) ∧
    (∀ q : ℚ, q < 30 → age_color (.num q) = Color.success) ∧
    (∀ q : ℚ, 30 ≤ q → q < 90 → age_color (.num q) = Color.warning) ∧
    (∀ q : ℚ, 90 ≤ q → age_color (.num q) = Color.danger) ∧
    (∀ q : ℚ, q < 3 → bus_factor_color (.num q) = Color.danger) ∧
    (∀ q : ℚ, 3 ≤ q → q < 10 → bus_factor_color (.num q) = Color.warning) ∧
    (∀ q : ℚ, 10 ≤ q → bus_factor_color (.num q) = Color.success) := by
  refine ⟨by norm_num [response_time_color], by norm_num [response_time_color],
    by norm_num [health_color], by norm_num [health_color],
    by norm_num [health_color], ?_, ?_, ?_, ?_, ?_, ?_, ?_, ?_, ?_, ?_, ?_, ?_,
    ?_, ?_, ?_⟩
  · intro q h
    simp only [response_time_color]
    rw [if_pos h]
  · intro q h1 h2
    simp only [response_time_color]
    rw [if_neg (not_lt.mpr h1), if_pos h2]
  · intro q h
    simp only [response_time_color]
    rw [if_neg (not_lt.mpr (le_trans (by norm_num) h)),
      if_neg (not_lt.mpr h)]
  · intro q h
    simp only [latency_color]
    rw [if_pos h]
  · intro q h1 h2
    simp only [latency_color]
    rw [if_neg (not_lt.mpr h1), if_pos h2]
  · intro q h
    simp only [latency_color]
    rw [if_neg (not_lt.mpr (le_trans (by norm_num) h)),
      if_neg (not_lt.mpr h)]
  · intro q h
    simp only [health_color]
    rw [if_pos h]
  · intro q h1 h2
    simp only [health_color]
    rw [if_neg (not_le.mpr h2), if_pos h1]
  · intro q h
    simp only [health_color]
    rw [if_neg (not_le.mpr (lt_trans h (by norm_num))), if_neg (not_le.mpr h)]
  · intro q h
    simp only [age_color]
    rw [if_pos h]
  · intro q h1 h2
    simp only [age_color]
    rw [if_neg (not_lt.mpr h1), if_pos h2]
  · intro q h
    simp only [age_color]
    rw [if_neg (not_lt.mpr (le_trans (by norm_num) h)),
      if_neg (not_lt.mpr h)]
  · intro q h
    simp only [bus_factor_color]
    rw [if_pos h]
  · intro q h1 h2
    simp only [bus_factor_color]
    rw [if_neg (not_lt.mpr h1), if_pos h2]
  · intro q h
    simp only [bus_factor_color]
    rw [if_neg (not_lt.mpr (le_trans (by norm_num) h)),
      if_neg (not_lt.mpr h)]

/-- C2 witness: one value inside each band of each dimension. -/
theorem C2_classifier_boundaries_witness :
    response_time_color (.num 10) = Color.success ∧
    response_time_color (.num 30) = Color.warning ∧
    response_time_color (.num 100) = Color.danger ∧
    latency_color (.num 1) = Color.success ∧
    latency_color (.num 5) = Color.warning ∧
    latency_color (.num 9) = Color.danger ∧
    health_color 95 = Color.success ∧
    health_color 60 = Color.warning ∧
    health_color 10 = Color.danger ∧
    age_color (.num 10) = Color.success ∧
    age_color (.num 40) = Color.warning ∧
    age_color (.num 100) = Color.danger ∧
    bus_factor_color (.num 1) = Color.danger ∧
    bus_factor_color (.num 5) = Color.warning ∧
    bus_factor_color (.num 12) = Color.success := by
  obtain ⟨-, -, -, -, -, hrf, hrm, hrd, hlf, hlm, hld, hhf, hhm, hhd, haf,
    ham, had, hbd, hbm, hbf⟩ := C2_classifier_boundaries
  exact ⟨hrf 10 (by norm_num), hrm 30 (by norm_num) (by norm_num),
    hrd 100 (by norm_num), hlf 1 (by norm_num),
    hlm 5 (by norm_num) (by norm_num), hld 9 (by norm_num),
    hhf 95 (by norm_num), hhm 60 (by norm_num) (by norm_num),
    hhd 10 (by norm_num), haf 10 (by norm_num),
    ham 40 (by norm_num) (by norm_num), had 100 (by norm_num),
    hbd 1 (by norm_num), hbm 5 (by norm_num) (by norm_num),
    hbf 12 (by norm_num)⟩

/-- C3 counterexample: with ample quota and a resolvable repository, a 500
failure of the closed-issue listing is NOT caught by the function — the
exception escapes to the caller instead of being downgraded to a sentinel. -/
theorem C3_counterexample :
    (get_repo_health_metrics envIssuesFail 0).fst = Except.error ⟨500⟩ := rfl

/-- C3 (amended): only the contributor-statistics block and the
community-profile call catch remote failures locally — the contributor fields
are downgraded to the processing/unavailable sentinel and the health score to 0
while the other metrics still compute — whereas a failure raised in the
closed-issue fetch, the per-issue comment fetch, the open-issue fetch or the
closed-pull-request fetch propagates to the caller unchanged. -/
theorem C3_collector_failures :
    (∀ (env : Env) (now : ℤ) (r : Repo) (e : GithubError),
      ¬ env.rate_limit_remaining < 5 → env.repo = .ok r →
      r.issues_closed = .error e →
      (get_repo_health_metrics env now).fst = .error e) ∧
    (∀ (env : Env) (now : ℤ) (r : Repo) (ic : List IssueData) (e : GithubError),
      ¬ env.rate_limit_remaining < 5 → env.repo = .ok r →
      r.issues_closed = .ok ic → collectResponseTimes (ic.take 20) = .error e →
      (get_repo_health_metrics env now).fst = .error e) ∧
    (∀ (env : Env) (now : ℤ) (r : Repo) (ic : List IssueData) (rts : List ℚ)
        (e : GithubError),
      ¬ env.rate_limit_remaining < 5 → env.repo = .ok r →
      r.issues_closed = .ok ic → collectResponseTimes (ic.take 20) = .ok rts →
      r.issues_open = .error e →
      (get_repo_health_metrics env now).fst = .error e) ∧
    (∀ (env : Env) (now : ℤ) (r : Repo) (ic io : List IssueData) (rts : List ℚ)
        (e : GithubError),
      ¬ env.rate_limit_remaining < 5 → env.repo = .ok r →
      r.issues_closed = .ok ic → collectResponseTimes (ic.take 20) = .ok rts →
      r.issues_open = .ok io → r.pulls = .error e →
      (get_repo_health_metrics env now).fst = .error e) ∧
    (∀ (env : Env) (now : ℤ) (r : Repo) (ic io : List IssueData) (rts : List ℚ)
        (ps : List PullData) (e : GithubError),
      ¬ env.rate_limit_remaining < 5 → env.repo = .ok r →
      r.issues_closed = .ok ic → collectResponseTimes (ic.take 20) = .ok rts →
      r.issues_open = .ok io → r.pulls = .ok ps →
      contribFetch r = .error e →
      ∃ m, (get_repo_health_metrics env now).fst = .ok (.success m) ∧
        m.bus_factor = (if e.status = 202 then MVal.processing else MVal.na) ∧
        m.total_contributors =
          (if e.status = 202 then MVal.processing else MVal.na) ∧
        m.avg_response_time_hours =
          (if rts = [] then MVal.na
           else MVal.num (round2 (mean rts / 3600))) ∧
        m.health_percentage = healthFromProfile r.community_profile) ∧
    (∀ (env : Env) (now : ℤ) (r : Repo) (ic io : List IssueData) (rts : List ℚ)
        (ps : List PullData),
      ¬ env.rate_limit_remaining < 5 → env.repo = .ok r →
      r.issues_closed = .ok ic → collectResponseTimes (ic.take 20) = .ok rts →
      r.issues_open = .ok io → r.pulls = .ok ps →
      r.community_profile = .error () →
      ∃ m, (get_repo_health_metrics env now).fst = .ok (.success m) ∧
        m.health_percentage = 0) := by
  refine ⟨?_, ?_, ?_, ?_, ?_, ?_⟩
  · intro env now r e h5 hr hic
    unfold get_repo_health_metrics
    simp only [if_neg h5, hr, hic]
  · intro env now r ic e h5 hr hic hct
    unfold get_repo_health_metrics
    simp only [if_neg h5, hr, hic, hct]
  · intro env now r ic rts e h5 hr hic hct hio
    unfold get_repo_health_metrics
    simp only [if_neg h5, hr, hic, hct, hio]
  · intro env now r ic io rts e h5 hr hic hct hio hps
    unfold get_repo_health_metrics
    simp only [if_neg h5, hr, hic, hct, hio, hps]
  · intro env now r ic io rts ps e h5 hr hic hct hio hps hcf
    refine ⟨applyColors (baseMetrics env.rate_limit_remaining r now rts io ps),
      ?_, ?_, ?_, rfl, rfl⟩
    · rw [get_metrics_success env now r ic rts io ps h5 hr hic hct hio hps]
    · show (contribFields (contribFetch r)).2 = _
      rw [hcf]
      by_cases h202 : e.status = 202 <;> simp [contribFields, h202]
    · show (contribFields (contribFetch r)).1 = _
      rw [hcf]
      by_cases h202 : e.status = 202 <;> simp [contribFields, h202]
  · intro env now r ic io rts ps h5 hr hic hct hio hps hcp
    refine ⟨applyColors (baseMetrics env.rate_limit_remaining r now rts io ps),
      ?_, ?_⟩
    · rw [get_metrics_success env now r ic rts io ps h5 hr hic hct hio hps]
    · show healthFromProfile r.community_profile = 0
      rw [hcp]
      rfl

/-- C3 witness: the escape at the concrete failing environment, and the
contributor-statistics downgrade with the other metrics still computed. -/
theorem C3_collector_failures_witness :
    (get_repo_health_metrics envIssuesFail 0).fst = Except.error ⟨500⟩ ∧
    (∃ m, (get_repo_health_metrics envStats202 0).fst = .ok (.success m) ∧
      m.bus_factor = MVal.processing ∧
      m.total_contributors = MVal.processing ∧
      m.avg_response_time_hours = MVal.na ∧
      m.health_percentage = healthFromProfile repoStats202.community_profile) :=
  ⟨C3_collector_failures.1 envIssuesFail 0 repoIssuesFail ⟨500⟩
     (by decide) rfl rfl,
   C3_collector_failures.2.2.2.2.1 envStats202 0 repoStats202 [] [] [] [] ⟨202⟩
     (by decide) rfl rfl rfl rfl rfl rfl⟩

/-- C4: for every remaining-quota value strictly below 5 the function returns
immediately the error-only report whose message quotes the remaining count and
which carries the observed quota, and the ghost trace records no resolver and
no collector call — only the preliminary status query. -/
theorem C4_quota_guard (env : Env) (now : ℤ)
    (h : env.rate_limit_remaining < 5) :
    get_repo_health_metrics env now =
      (.ok (.errorReport (rateLimitMsg env.rate_limit_remaining)
        env.rate_limit_remaining), [CallKind.rateLimit]) := by
  unfold get_repo_health_metrics
  rw [if_pos h]

/-- C4 witness: the guard fires at the concrete quota value 3. -/
theorem C4_quota_guard_witness :
    get_repo_health_metrics envLowQuota 0 =
      (.ok (.errorReport (rateLimitMsg 3) 3), [CallKind.rateLimit]) :=
  C4_quota_guard envLowQuota 0 (by decide)

/-- C5: the responsiveness metric equals the mean, converted to hours and
rounded to 2 decimal places, of the elapsed seconds from creation to first
comment over the 20 most recently created closed issues after excluding
pull-request entries, restricted to those with at least one comment; when that
sample is empty the metric is the unavailable sentinel, and the report is still
produced without an exception. -/
theorem C5_responsiveness (env : Env) (now : ℤ) (r : Repo)
    (ic io : List IssueData) (ps : List PullData)
    (h5 : ¬ env.rate_limit_remaining < 5) (hr : env.repo = .ok r)
    (hic : r.issues_closed = .ok ic)
    (hcm : ∀ i ∈ ic.take 20, i.is_pr = false → ∃ cs, i.comments = Except.ok cs)
    (hio : r.issues_open = .ok io) (hps : r.pulls = .ok ps) :
    ∃ m, (get_repo_health_metrics env now).fst = .ok (.success m) ∧
      m.avg_response_time_hours =
        (if responseSampleSpec (ic.take 20) = [] then MVal.na
         else MVal.num (round2 (mean (responseSampleSpec (ic.take 20)) / 3600))) := by
  have hct := collectResponseTimes_ok (ic.take 20) hcm
  refine ⟨applyColors (baseMetrics env.rate_limit_remaining r now
      (responseSampleSpec (ic.take 20)) io ps), ?_, rfl⟩
  rw [get_metrics_success env now r ic (responseSampleSpec (ic.take 20)) io ps
    h5 hr hic hct hio hps]

/-- C5 witness: a single closed issue answered after 7200 seconds. -/
theorem C5_responsiveness_witness :
    ∃ m, (get_repo_health_metrics envResp 0).fst = .ok (.success m) ∧
      m.avg_response_time_hours =
        (if responseSampleSpec ([issueQuick].take 20) = [] then MVal.na
         else MVal.num
           (round2 (mean (responseSampleSpec ([issueQuick].take 20)) / 3600))) :=
  C5_responsiveness envResp 0 repoResp [issueQuick] [] [] (by decide) rfl rfl
    (by
      intro i hi hpr
      simp only [List.take_succ_cons, List.take_nil, List.mem_singleton] at hi
      subst hi
      exact ⟨[7200], rfl⟩)
    rfl rfl

/-- C6: the review-latency metric equals the mean, converted to days and
rounded to 2 decimals, of end minus creation over the 20 most recently created
closed pull requests, where the end timestamp is the merge timestamp if merged
and otherwise the close timestamp; entries closed without merge and lacking a
close timestamp are skipped without aborting, and the metric is the unavailable
sentinel when no closed pull request has a resolvable end timestamp. -/
theorem C6_review_latency :
    (∀ (env : Env) (now : ℤ) (r : Repo) (ic io : List IssueData)
        (rts : List ℚ) (ps : List PullData),
      ¬ env.rate_limit_remaining < 5 → env.repo = .ok r →
      r.issues_closed = .ok ic → collectResponseTimes (ic.take 20) = .ok rts →
      r.issues_open = .ok io → r.pulls = .ok ps →
      ∃ m, (get_repo_health_metrics env now).fst = .ok (.success m) ∧
        m.avg_pr_latency_days =
          (if prLatencySpec (ps.take 20) = [] then MVal.na
           else MVal.num (round2 (mean (prLatencySpec (ps.take 20)) / 86400)))) ∧
    (∀ (p : PullData) (l : List PullData), p.merged = false →
      p.closed_at = none → collectPrLatencies (p :: l) = collectPrLatencies l) := by
  constructor
  · intro env now r ic io rts ps h5 hr hic hct hio hps
    refine ⟨applyColors (baseMetrics env.rate_limit_remaining r now rts io ps),
      ?_, ?_⟩
    · rw [get_metrics_success env now r ic rts io ps h5 hr hic hct hio hps]
    · show (if collectPrLatencies (ps.take 20) = [] then MVal.na
        else MVal.num (round2 (mean (collectPrLatencies (ps.take 20)) / 86400))) = _
      rw [collectPrLatencies_eq]
  · intro p l hm hc
    simp [collectPrLatencies, prEndTime, hm, hc]

/-- C6 witness: one merged pull request (one day of latency) and one closed
without merge and without close timestamp, which is skipped. -/
theorem C6_review_latency_witness :
    ∃ m, (get_repo_health_metrics envPulls 0).fst = .ok (.success m) ∧
      m.avg_pr_latency_days =
        (if prLatencySpec ([prMerged, prSkipped].take 20) = [] then MVal.na
         else MVal.num
           (round2 (mean (prLatencySpec ([prMerged, prSkipped].take 20)) / 86400))) :=
  C6_review_latency.1 envPulls 0 repoPulls [] [] [] [prMerged, prSkipped]
    (by decide) rfl rfl rfl rfl rfl

/-- C7: when the contributor block fails with the platform's still-computing
status 202, both the contributor count and the bus factor become the processing
sentinel; on any other failing status both become the unavailable sentinel; and
the two sentinels are distinguishable. -/
theorem C7_contributor_sentinels :
    (∀ (env : Env) (now : ℤ) (r : Repo) (ic io : List IssueData)
        (rts : List ℚ) (ps : List PullData) (e : GithubError),
      ¬ env.rate_limit_remaining < 5 → env.repo = .ok r →
      r.issues_closed = .ok ic → collectResponseTimes (ic.take 20) = .ok rts →
      r.issues_open = .ok io → r.pulls = .ok ps →
      contribFetch r = .error e →
      ∃ m, (get_repo_health_metrics env now).fst = .ok (.success m) ∧
        m.total_contributors =
          (if e.status = 202 then MVal.processing else MVal.na) ∧
        m.bus_factor = (if e.status = 202 then MVal.processing else MVal.na)) ∧
    MVal.processing ≠ MVal.na := by
  constructor
  · intro env now r ic io rts ps e h5 hr hic hct hio hps hcf
    refine ⟨applyColors (baseMetrics env.rate_limit_remaining r now rts io ps),
      ?_, ?_, ?_⟩
    · rw [get_metrics_success env now r ic rts io ps h5 hr hic hct hio hps]
    · show (contribFields (contribFetch r)).1 = _
      rw [hcf]
      by_cases h202 : e.status = 202 <;> simp [contribFields, h202]
    · show (contribFields (contribFetch r)).2 = _
      rw [hcf]
      by_cases h202 : e.status = 202 <;> simp [contribFields, h202]
  · decide

/-- C7 witness: status 202 yields the processing sentinel, status 500 the
unavailable sentinel, for both contributor fields. -/
theorem C7_contributor_sentinels_witness :
    (∃ m, (get_repo_health_metrics envStats202 0).fst = .ok (.success m) ∧
      m.total_contributors = MVal.processing ∧
      m.bus_factor = MVal.processing) ∧
    (∃ m, (get_repo_health_metrics envStats500 0).fst = .ok (.success m) ∧
      m.total_contributors = MVal.na ∧
      m.bus_factor = MVal.na) :=
  ⟨C7_contributor_sentinels.1 envStats202 0 repoStats202 [] [] [] [] ⟨202⟩
     (by decide) rfl rfl rfl rfl rfl rfl,
   C7_contributor_sentinels.1 envStats500 0 repoStats500 [] [] [] [] ⟨500⟩
     (by decide) rfl rfl rfl rfl rfl rfl⟩

/-- C8: every classifier is total into the four bands
secondary/success/warning/danger (unknown/favorable/moderate/unfavorable),
each sentinel input (unavailable or processing) yields the unknown band, and on
every success report each colour field is exactly the classifier applied to the
corresponding metric field. -/
theorem C8_classified_bands :
    (∀ v, bus_factor_color v = Color.secondary ∨
      bus_factor_color v = Color.success ∨ bus_factor_color v = Color.warning ∨
      bus_factor_color v = Color.danger) ∧
    (∀ v, response_time_color v = Color.secondary ∨
      response_time_color v = Color.success ∨
      response_time_color v = Color.warning ∨
      response_time_color v = Color.danger) ∧
    (∀ v, latency_color v = Color.secondary ∨ latency_color v = Color.success ∨
      latency_color v = Color.warning ∨ latency_color v = Color.danger) ∧
    (∀ v, age_color v = Color.secondary ∨ age_color v = Color.success ∨
      age_color v = Color.warning ∨ age_color v = Color.danger) ∧
    (∀ q : ℚ, health_color q = Color.success ∨ health_color q = Color.warning ∨
      health_color q = Color.danger) ∧
    (bus_factor_color .na = Color.secondary ∧
     bus_factor_color .processing = Color.secondary ∧
     response_time_color .na = Color.secondary ∧
     response_time_color .processing = Color.secondary ∧
     latency_color .na = Color.secondary ∧
     latency_color .processing = Color.secondary ∧
     age_color .na = Color.secondary ∧
     age_color .processing = Color.secondary) ∧
    (∀ (env : Env) (now : ℤ) (m : Metrics),
      (get_repo_health_metrics env now).fst = .ok (.success m) →
      m.bus_factor_color = bus_factor_color m.bus_factor ∧
      m.response_time_color = response_time_color m.avg_response_time_hours ∧
      m.latency_color = latency_color m.avg_pr_latency_days ∧
      m.health_color = health_color (m.health_percentage : ℚ) ∧
      m.age_color = age_color m.avg_issue_age_days) := by
  refine ⟨?_, ?_, ?_, ?_, ?_, ⟨rfl, rfl, rfl, rfl, rfl, rfl, rfl, rfl⟩, ?_⟩
  · intro v
    rcases v with q | _ | _
    · by_cases h3 : q < 3
      · simp [bus_factor_color, h3]
      · by_cases h10 : q < 10 <;> simp [bus_factor_color, h3, h10]
    · simp [bus_factor_color]
    · simp [bus_factor_color]
  · intro v
    rcases v with q | _ | _
    · by_cases h1 : q < 24
      · simp [response_time_color, h1]
      · by_cases h2 : q < 72 <;> simp [response_time_color, h1, h2]
    · simp [response_time_color]
    · simp [response_time_color]
  · intro v
    rcases v with q | _ | _
    · by_cases h1 : q < 3
      · simp [latency_color, h1]
      · by_cases h2 : q < 7 <;> simp [latency_color, h1, h2]
    · simp [latency_color]
    · simp [latency_color]
  · intro v
    rcases v with q | _ | _
    · by_cases h1 : q < 30
      · simp [age_color, h1]
      · by_cases h2 : q < 90 <;> simp [age_color, h1, h2]
    · simp [age_color]
    · simp [age_color]
  · intro q
    by_cases h1 : 80 ≤ q
    · simp [health_color, h1]
    · by_cases h2 : 50 ≤ q <;> simp [health_color, h1, h2]
  · intro env now m h
    obtain ⟨rl, r, rts, io, ps, hm⟩ := success_inv env now m h
    subst hm
    exact ⟨rfl, rfl, rfl, rfl, rfl⟩

/-- C8 witness: colour coherence on the concrete success report of `envGood`. -/
theorem C8_classified_bands_witness :
    mGood.bus_factor_color = bus_factor_color mGood.bus_factor ∧
    mGood.response_time_color = response_time_color mGood.avg_response_time_hours ∧
    mGood.latency_color = latency_color mGood.avg_pr_latency_days ∧
    mGood.health_color = health_color (mGood.health_percentage : ℚ) ∧
    mGood.age_color = age_color mGood.avg_issue_age_days :=
  C8_classified_bands.2.2.2.2.2.2 envGood 0 mGood rfl

/-- C9: the community health score defaults to 0 on a failed call and on a
missing value, passes a present value through unchanged (so it stays within
0–100 whenever the remote value is), and the success report's health field has
no unavailable sentinel — it is this integer. -/
theorem C9_health_score :
    (∀ e, healthFromProfile (.error e) = 0) ∧
    healthFromProfile (.ok none) = 0 ∧
    (∀ v : ℤ, healthFromProfile (.ok (some v)) = v) ∧
    (∀ p : Except Unit (Option ℤ),
      (∀ v, p = .ok (some v) → 0 ≤ v ∧ v ≤ 100) →
      0 ≤ healthFromProfile p ∧ healthFromProfile p ≤ 100) ∧
    (∀ (env : Env) (now : ℤ) (r : Repo) (ic io : List IssueData)
        (rts : List ℚ) (ps : List PullData),
      ¬ env.rate_limit_remaining < 5 → env.repo = .ok r →
      r.issues_closed = .ok ic → collectResponseTimes (ic.take 20) = .ok rts →
      r.issues_open = .ok io → r.pulls = .ok ps →
      ∃ m, (get_repo_health_metrics env now).fst = .ok (.success m) ∧
        m.health_percentage = healthFromProfile r.community_profile) := by
  have hval : ∀ v : ℤ, healthFromProfile (.ok (some v)) = v := by
    intro v
    by_cases h : v = 0 <;> simp [healthFromProfile, h]
  refine ⟨fun e => rfl, rfl, hval, ?_, ?_⟩
  · intro p hp
    rcases p with u | o
    · simp [healthFromProfile]
    · rcases o with _ | v
      · simp [healthFromProfile]
      · rw [hval v]
        exact hp v rfl
  · intro env now r ic io rts ps h5 hr hic hct hio hps
    refine ⟨applyColors (baseMetrics env.rate_limit_remaining r now rts io ps),
      ?_, rfl⟩
    rw [get_metrics_success env now r ic rts io ps h5 hr hic hct hio hps]

/-- C9 witness: a present remote value 90 keeps the score 90 within bounds, and
the concrete success report carries exactly the collector's value. -/
theorem C9_health_score_witness :
    (0 ≤ healthFromProfile (.ok (some 90)) ∧
      healthFromProfile (.ok (some 90)) ≤ 100) ∧
    (∃ m, (get_repo_health_metrics envGood 0).fst = .ok (.success m) ∧
      m.health_percentage = healthFromProfile repoGood.community_profile) :=
  ⟨C9_health_score.2.2.2.1 (.ok (some 90))
    (fun v h => by
      simp only [Except.ok.injEq, Option.some.injEq] at h
      subst h
      exact ⟨by decide, by decide⟩),
   C9_health_score.2.2.2.2 envGood 0 repoGood [] [] [] []
     (by decide) rfl rfl rfl rfl rfl⟩

/-- C10: when the total additions are positive but the additions attributable
to contributors with an author identity stay strictly below half the total,
the walk over the sorted authored totals never reaches the target and the bus
factor keeps the unavailable sentinel. -/
theorem C10_unreached_target (stats : List ContribStat)
    (hpos : 0 < total_additions stats)
    (hlt : (authoredAdditions stats : ℚ) < target_additions stats) :
    bus_factor stats = MVal.na := by
  have h0 : total_additions stats ≠ 0 := by omega
  unfold bus_factor
  rw [if_neg h0]
  have hw : busFactorWalk (target_additions stats) (sortedAdditions stats) 0 0
      = none := by
    apply busFactorWalk_none
    simpa [sortedAdditions_sum] using hlt
  rw [hw]

/-- C10 witness: an anonymous entry holds 10 of 11 additions, the single
authored entry only 1, so the walk never reaches the target of 5.5. -/
theorem C10_unreached_target_witness : bus_factor exStatsAnon = MVal.na :=
  C10_unreached_target exStatsAnon (by decide)
    (by
      rw [show authoredAdditions exStatsAnon = 1 from by decide]
      unfold target_additions
      rw [show total_additions exStatsAnon = 11 from by decide]
      norm_num)
